import Mathlib

/-!
Verification of the native OpenGL context bridge in
`src/modules/juce_opengl/native/juce_OpenGL_osx.h` (class
`OpenGLContext::NativeContext`): pixel-format attribute negotiation
(`createAttribs`), the frame pacer (`sleepIfRenderingTooFast`,
`setSwapInterval`), the display-link bridge (`setDisplayLinkTarget`,
`displayLinkOutputCallback`) and the context identity check (`isActive`).

Machine integers are modelled as `Int`/`Nat`; the high-resolution clock value
(a C++ `double` holding milliseconds) is modelled as `ℚ` with explicit
truncation toward zero for the `(int)` cast.  Platform calls (CoreVideo,
thread sleep) are modelled as explicit traces/outputs of otherwise pure
transition functions.
-/

namespace JuceGL

/-- One slot of the `NSOpenGLPixelFormatAttribute attribs[64]` array: either one
of the attribute tokens used by `createAttribs`, or a plain integer value
(`value 0` is the zero initialiser / list terminator). -/
inductive Attrib where
  | NSOpenGLPFAOpenGLProfile
  | NSOpenGLProfileVersion3_2Core
  | NSOpenGLProfileVersionLegacy
  | NSOpenGLPFADoubleBuffer
  | NSOpenGLPFAClosestPolicy
  | NSOpenGLPFANoRecovery
  | NSOpenGLPFAColorSize
  | NSOpenGLPFAAlphaSize
  | NSOpenGLPFADepthSize
  | NSOpenGLPFAStencilSize
  | NSOpenGLPFAAccumSize
  | NSOpenGLPFAMultisample
  | NSOpenGLPFASampleBuffers
  | NSOpenGLPFASamples
  | value (n : Nat)
  deriving DecidableEq, Repr

/-- Modelled from the spec: the `OpenGLPixelFormat` request (declared in the
framework core outside the excerpt; its fields are exactly those read by
`createAttribs`): color bit depths (red/green/blue/alpha), depth-buffer bits,
stencil-buffer bits, per-channel accumulation-buffer bit depths, and the
multisampling sample count. -/
structure OpenGLPixelFormat where
  redBits : Nat
  greenBits : Nat
  blueBits : Nat
  alphaBits : Nat
  depthBufferBits : Nat
  stencilBufferBits : Nat
  accumulationBufferRedBits : Nat
  accumulationBufferGreenBits : Nat
  accumulationBufferBlueBits : Nat
  accumulationBufferAlphaBits : Nat
  multisamplingLevel : Nat
  deriving DecidableEq, Repr

/-- Modelled from the spec: the requested API version enum (declared in the
framework core outside the excerpt); `openGL3_2` is the threshold version
compared against with `>=` in `createAttribs`. -/
inductive OpenGLVersion where
  | defaultGLVersion
  | openGL3_2
  deriving DecidableEq, Repr

/-- Numeric value of the `OpenGLVersion` enum, used for the `>=` comparison. -/
def OpenGLVersion.toNat : OpenGLVersion → Nat
  | .defaultGLVersion => 0
  | .openGL3_2 => 1

/-- The zero-initialised 64-entry attribute buffer
(`NSOpenGLPixelFormatAttribute attribs[64] = { 0 };`). -/
def initialAttribs : List Attrib := List.replicate 64 (.value 0)

/-- Transcription of `createAttribs` from `juce_OpenGL_osx.h` (lines 77–112),
statement by statement: the 64-slot buffer is a list, and each
`attribs[numAttribs++] = X` becomes a write at index `numAttribs`
(`List.set`, a no-op out of bounds) followed by the increment.  The `#if JUCE_OPENGL3` block is
controlled by the compile-time flag `juceOpenGL3`.  Returns the final buffer
together with the final `numAttribs`. -/
def createAttribs (juceOpenGL3 : Bool) (attribs : List Attrib)
    (version : OpenGLVersion) (pixFormat : OpenGLPixelFormat)
    (shouldUseMultisampling : Bool) : List Attrib × Nat := Id.run do
  let mut attribs := attribs
  let mut numAttribs : Nat := 0
  if juceOpenGL3 then
    attribs := attribs.set numAttribs .NSOpenGLPFAOpenGLProfile
    numAttribs := numAttribs + 1
    attribs := attribs.set numAttribs
      (if OpenGLVersion.openGL3_2.toNat ≤ version.toNat
         then .NSOpenGLProfileVersion3_2Core
         else .NSOpenGLProfileVersionLegacy)
    numAttribs := numAttribs + 1
  attribs := attribs.set numAttribs .NSOpenGLPFADoubleBuffer
  numAttribs := numAttribs + 1
  attribs := attribs.set numAttribs .NSOpenGLPFAClosestPolicy
  numAttribs := numAttribs + 1
  attribs := attribs.set numAttribs .NSOpenGLPFANoRecovery
  numAttribs := numAttribs + 1
  attribs := attribs.set numAttribs .NSOpenGLPFAColorSize
  numAttribs := numAttribs + 1
  attribs := attribs.set numAttribs
    (.value (pixFormat.redBits + pixFormat.greenBits + pixFormat.blueBits))
  numAttribs := numAttribs + 1
  attribs := attribs.set numAttribs .NSOpenGLPFAAlphaSize
  numAttribs := numAttribs + 1
  attribs := attribs.set numAttribs (.value pixFormat.alphaBits)
  numAttribs := numAttribs + 1
  attribs := attribs.set numAttribs .NSOpenGLPFADepthSize
  numAttribs := numAttribs + 1
  attribs := attribs.set numAttribs (.value pixFormat.depthBufferBits)
  numAttribs := numAttribs + 1
  attribs := attribs.set numAttribs .NSOpenGLPFAStencilSize
  numAttribs := numAttribs + 1
  attribs := attribs.set numAttribs (.value pixFormat.stencilBufferBits)
  numAttribs := numAttribs + 1
  attribs := attribs.set numAttribs .NSOpenGLPFAAccumSize
  numAttribs := numAttribs + 1
  attribs := attribs.set numAttribs
    (.value (pixFormat.accumulationBufferRedBits + pixFormat.accumulationBufferGreenBits
              + pixFormat.accumulationBufferBlueBits + pixFormat.accumulationBufferAlphaBits))
  numAttribs := numAttribs + 1
  if shouldUseMultisampling then
    attribs := attribs.set numAttribs .NSOpenGLPFAMultisample
    numAttribs := numAttribs + 1
    attribs := attribs.set numAttribs .NSOpenGLPFASampleBuffers
    numAttribs := numAttribs + 1
    attribs := attribs.set numAttribs (.value 1)
    numAttribs := numAttribs + 1
    attribs := attribs.set numAttribs .NSOpenGLPFASamples
    numAttribs := numAttribs + 1
    attribs := attribs.set numAttribs (.value pixFormat.multisamplingLevel)
    numAttribs := numAttribs + 1
  return (attribs, numAttribs)

/-- The attribute sequence actually written by `createAttribs` when the
constructor passes it the zero-initialised 64-entry buffer: the first
`numAttribs` entries of the resulting array. -/
def writtenAttribs (juceOpenGL3 : Bool) (version : OpenGLVersion)
    (pixFormat : OpenGLPixelFormat) (shouldUseMultisampling : Bool) : List Attrib :=
  let r := createAttribs juceOpenGL3 initialAttribs version pixFormat shouldUseMultisampling
  r.1.take r.2

/-- The profile-selection entries: present exactly when `JUCE_OPENGL3` is
defined, choosing the 3.2 core profile iff `version >= openGL3_2`. -/
def profileBlock (juceOpenGL3 : Bool) (version : OpenGLVersion) : List Attrib :=
  if juceOpenGL3 then
    [.NSOpenGLPFAOpenGLProfile,
     if OpenGLVersion.openGL3_2.toNat ≤ version.toNat
       then .NSOpenGLProfileVersion3_2Core
       else .NSOpenGLProfileVersionLegacy]
  else []

/-- The thirteen unconditional entries, in source order. -/
def baseBlock (pixFormat : OpenGLPixelFormat) : List Attrib :=
  [.NSOpenGLPFADoubleBuffer,
   .NSOpenGLPFAClosestPolicy,
   .NSOpenGLPFANoRecovery,
   .NSOpenGLPFAColorSize,
   .value (pixFormat.redBits + pixFormat.greenBits + pixFormat.blueBits),
   .NSOpenGLPFAAlphaSize,
   .value pixFormat.alphaBits,
   .NSOpenGLPFADepthSize,
   .value pixFormat.depthBufferBits,
   .NSOpenGLPFAStencilSize,
   .value pixFormat.stencilBufferBits,
   .NSOpenGLPFAAccumSize,
   .value (pixFormat.accumulationBufferRedBits + pixFormat.accumulationBufferGreenBits
            + pixFormat.accumulationBufferBlueBits + pixFormat.accumulationBufferAlphaBits)]

/-- The five multisampling entries, present exactly when requested. -/
def msBlock (pixFormat : OpenGLPixelFormat) (shouldUseMultisampling : Bool) : List Attrib :=
  if shouldUseMultisampling then
    [.NSOpenGLPFAMultisample,
     .NSOpenGLPFASampleBuffers,
     .value 1,
     .NSOpenGLPFASamples,
     .value pixFormat.multisamplingLevel]
  else []

/-- Holds exactly on the three multisample-related attribute tokens. -/
def isMultisampleAttr : Attrib → Bool
  | .NSOpenGLPFAMultisample => true
  | .NSOpenGLPFASampleBuffers => true
  | .NSOpenGLPFASamples => true
  | _ => false

/-- The entry immediately following the first occurrence of `t` in the list
(used to read the value slot written right after an attribute token). -/
def valueAfter : List Attrib → Attrib → Option Attrib
  | [], _ => none
  | a :: rest, t => if a = t then rest.head? else valueAfter rest t

/-- A concrete pixel-format request used to instantiate witness theorems. -/
def pf0 : OpenGLPixelFormat :=
  { redBits := 8, greenBits := 8, blueBits := 8, alphaBits := 8
    depthBufferBits := 16, stencilBufferBits := 8
    accumulationBufferRedBits := 2, accumulationBufferGreenBits := 3
    accumulationBufferBlueBits := 4, accumulationBufferAlphaBits := 5
    multisamplingLevel := 4 }

set_option maxHeartbeats 2000000 in
theorem createAttribs_run (juceOpenGL3 : Bool) (version : OpenGLVersion)
    (pixFormat : OpenGLPixelFormat) (shouldUseMultisampling : Bool) :
    createAttribs juceOpenGL3 initialAttribs version pixFormat shouldUseMultisampling =
      ((profileBlock juceOpenGL3 version ++ baseBlock pixFormat
          ++ msBlock pixFormat shouldUseMultisampling)
         ++ List.replicate
              (64 - (profileBlock juceOpenGL3 version ++ baseBlock pixFormat
                       ++ msBlock pixFormat shouldUseMultisampling).length)
              (.value 0),
       (profileBlock juceOpenGL3 version ++ baseBlock pixFormat
          ++ msBlock pixFormat shouldUseMultisampling).length) := by
  cases juceOpenGL3 <;> cases version <;> cases shouldUseMultisampling <;> rfl

theorem writtenAttribs_eq (juceOpenGL3 : Bool) (version : OpenGLVersion)
    (pixFormat : OpenGLPixelFormat) (shouldUseMultisampling : Bool) :
    writtenAttribs juceOpenGL3 version pixFormat shouldUseMultisampling =
      profileBlock juceOpenGL3 version ++ baseBlock pixFormat
        ++ msBlock pixFormat shouldUseMultisampling := by
  unfold writtenAttribs
  rw [createAttribs_run]
  exact List.take_left' rfl

/-- C3: with multisampling disabled, the attribute sequence contains no
multisample-related entry; with multisampling enabled at sample count `N`
(`pixFormat.multisamplingLevel`), the sequence is the disabled sequence with
exactly the block multisample-enable / sample-buffers = 1 / samples = N
appended after all other attributes. -/
theorem createAttribs_multisample_block (juceOpenGL3 : Bool)
    (version : OpenGLVersion) (pixFormat : OpenGLPixelFormat) :
    ((writtenAttribs juceOpenGL3 version pixFormat false).all
        (fun a => !(isMultisampleAttr a)) = true)
    ∧ writtenAttribs juceOpenGL3 version pixFormat true =
        writtenAttribs juceOpenGL3 version pixFormat false
          ++ [.NSOpenGLPFAMultisample, .NSOpenGLPFASampleBuffers, .value 1,
              .NSOpenGLPFASamples, .value pixFormat.multisamplingLevel] := by
  simp only [writtenAttribs_eq]
  constructor
  · cases juceOpenGL3 <;> cases version <;>
      simp [profileBlock, baseBlock, msBlock, isMultisampleAttr, OpenGLVersion.toNat]
  · simp [msBlock]

/-- C4: the value written immediately after the color-size token is the sum of
the red, green and blue bit depths (alpha emitted separately after the
alpha-size token), and the value after the accumulation-size token is the sum
of the four accumulation-channel bit depths. -/
theorem createAttribs_color_accum_sums (juceOpenGL3 : Bool)
    (version : OpenGLVersion) (pixFormat : OpenGLPixelFormat)
    (shouldUseMultisampling : Bool) :
    valueAfter (writtenAttribs juceOpenGL3 version pixFormat shouldUseMultisampling)
        .NSOpenGLPFAColorSize
      = some (.value (pixFormat.redBits + pixFormat.greenBits + pixFormat.blueBits))
    ∧ valueAfter (writtenAttribs juceOpenGL3 version pixFormat shouldUseMultisampling)
        .NSOpenGLPFAAlphaSize
      = some (.value pixFormat.alphaBits)
    ∧ valueAfter (writtenAttribs juceOpenGL3 version pixFormat shouldUseMultisampling)
        .NSOpenGLPFAAccumSize
      = some (.value (pixFormat.accumulationBufferRedBits
                       + pixFormat.accumulationBufferGreenBits
                       + pixFormat.accumulationBufferBlueBits
                       + pixFormat.accumulationBufferAlphaBits)) := by
  simp only [writtenAttribs_eq]
  cases juceOpenGL3 <;> cases version <;> cases shouldUseMultisampling <;>
    simp [profileBlock, baseBlock, msBlock, valueAfter, OpenGLVersion.toNat]

/-- C5: attribute construction is deterministic and order-sensitive — if a
profile was requested at or above the `openGL3_2` threshold (in the
`JUCE_OPENGL3` build, where the profile mechanism exists), the
profile-selection token is emitted before anything else with the 3.2 core
profile value; and for every request the sequence is exactly the profile
block, then double-buffer / closest-policy / no-recovery, then color size,
alpha size, depth size, stencil size and accumulation size in that fixed
order, then the multisample block. -/
theorem createAttribs_order (juceOpenGL3 : Bool) (version : OpenGLVersion)
    (pixFormat : OpenGLPixelFormat) (shouldUseMultisampling : Bool) :
    (juceOpenGL3 = true → OpenGLVersion.openGL3_2.toNat ≤ version.toNat →
      (writtenAttribs juceOpenGL3 version pixFormat shouldUseMultisampling).take 2
        = [.NSOpenGLPFAOpenGLProfile, .NSOpenGLProfileVersion3_2Core])
    ∧ writtenAttribs juceOpenGL3 version pixFormat shouldUseMultisampling =
        profileBlock juceOpenGL3 version ++ baseBlock pixFormat
          ++ msBlock pixFormat shouldUseMultisampling := by
  refine ⟨?_, writtenAttribs_eq ..⟩
  intro hgl hv
  subst hgl
  rw [writtenAttribs_eq]
  cases version with
  | defaultGLVersion => exact absurd hv (by decide)
  | openGL3_2 => rfl

theorem createAttribs_order_witness :
    (writtenAttribs true .openGL3_2 pf0 true).take 2
      = [.NSOpenGLPFAOpenGLProfile, .NSOpenGLProfileVersion3_2Core] :=
  (createAttribs_order true .openGL3_2 pf0 true).1 rfl (by decide)

/-- C10: for every request, `createAttribs` writes at most 20 entries
(2-entry profile block, 13 base entries, 5-entry multisample block), strictly
fewer than the 64-entry zero-initialised buffer, the buffer keeps its length,
and every slot past the written prefix still holds the zero initialiser, so
the list retains a trailing zero terminator. -/
theorem createAttribs_capacity (juceOpenGL3 : Bool) (version : OpenGLVersion)
    (pixFormat : OpenGLPixelFormat) (shouldUseMultisampling : Bool) :
    (createAttribs juceOpenGL3 initialAttribs version pixFormat
        shouldUseMultisampling).2 ≤ 20
    ∧ (createAttribs juceOpenGL3 initialAttribs version pixFormat
        shouldUseMultisampling).2 < 64
    ∧ (createAttribs juceOpenGL3 initialAttribs version pixFormat
        shouldUseMultisampling).1.length = 64
    ∧ (createAttribs juceOpenGL3 initialAttribs version pixFormat
        shouldUseMultisampling).1.drop
        (createAttribs juceOpenGL3 initialAttribs version pixFormat
          shouldUseMultisampling).2
      = List.replicate
          (64 - (createAttribs juceOpenGL3 initialAttribs version pixFormat
                   shouldUseMultisampling).2) (.value 0) := by
  rw [createAttribs_run]
  cases juceOpenGL3 <;> cases version <;> cases shouldUseMultisampling <;>
    refine ⟨by simp [profileBlock, baseBlock, msBlock],
            by simp [profileBlock, baseBlock, msBlock],
            by simp [profileBlock, baseBlock, msBlock],
            ?_⟩ <;>
    simp [profileBlock, baseBlock, msBlock, List.drop_append_of_le_length]

/-- Truncation toward zero of a rational (numerator and denominator are in
lowest terms with positive denominator, so `tdiv` truncates toward zero): the
semantics of the C++ `(int)` cast applied to the `double` difference
`now - lastSwapTime`. -/
def truncToInt (q : ℚ) : Int := q.num.tdiv q.den

/-- Modelled from the spec: JUCE's `isPositiveAndBelow` helper (framework
core, outside the excerpt); per the spec the tested value lies in the
half-open interval `[0, upperLimit)`. -/
def isPositiveAndBelow (valueToTest upperLimit : Int) : Bool :=
  decide (0 ≤ valueToTest) && decide (valueToTest < upperLimit)

/-- The frame-pacing fields of `NativeContext`: `lastSwapTime` (a C++
`double`, modelled as `ℚ`), `minSwapTimeMs` and `underrunCounter`
(C++ `int`s, modelled as `Int`; the pacer logic keeps them far from any
32-bit overflow). -/
structure PacerState where
  lastSwapTime : ℚ
  minSwapTimeMs : Int
  underrunCounter : Int
  deriving DecidableEq, Repr

/-- The frame-pacing state set by the constructor initialiser list:
`lastSwapTime (0), minSwapTimeMs (0), underrunCounter (0)`. -/
def initialPacerState : PacerState :=
  { lastSwapTime := 0, minSwapTimeMs := 0, underrunCounter := 0 }

/-- Transcription of `sleepIfRenderingTooFast` (lines 190–215).  The clock reading
`Time::getMillisecondCounterHiRes()` is the explicit input `now`; the effect
`Thread::sleep (minSwapTimeMs - elapsed)` is returned as `some` duration,
`none` when no sleep happens. -/
def sleepIfRenderingTooFast (s : PacerState) (now : ℚ) : PacerState × Option Int :=
  if s.minSwapTimeMs > 0 then
    let elapsed : Int := truncToInt (now - s.lastSwapTime)
    let s := { s with lastSwapTime := now }
    if isPositiveAndBelow elapsed (s.minSwapTimeMs - 3) then
      if s.underrunCounter > 3 then
        (s, some (s.minSwapTimeMs - elapsed))
      else
        ({ s with underrunCounter := s.underrunCounter + 1 }, none)
    else
      ({ s with underrunCounter := 0 }, none)
  else
    (s, none)

/-- The `minSwapTimeMs` update performed by `setSwapInterval` (line 174):
`(numFramesPerSwap * 1000) / 60` with C++ truncating integer division (the
forwarding of `numFramesPerSwap` to the platform context does not touch the
pacer state). -/
def setSwapInterval (s : PacerState) (numFramesPerSwap : Int) : PacerState :=
  { s with minSwapTimeMs := Int.tdiv (numFramesPerSwap * 1000) 60 }

/-- Run the pacer over a sequence of clock readings, one per swap, collecting
the sleep outcome of each call. -/
def runPacer : PacerState → List ℚ → PacerState × List (Option Int)
  | s, [] => (s, [])
  | s, now :: rest =>
    let r := sleepIfRenderingTooFast s now
    let r2 := runPacer r.1 rest
    (r2.1, r.2 :: r2.2)

/-- One frame-pacing-relevant operation on a `NativeContext`: a buffer swap
(whose `sleepIfRenderingTooFast` sees clock reading `now`) or a
`setSwapInterval` call. -/
inductive PacerOp where
  | swap (now : ℚ)
  | setInterval (numFramesPerSwap : Int)
  deriving Repr

/-- Effect of one operation on the frame-pacing state. -/
def applyPacerOp (s : PacerState) : PacerOp → PacerState
  | .swap now => (sleepIfRenderingTooFast s now).1
  | .setInterval n => setSwapInterval s n

/-- Effect of a whole operation sequence on the frame-pacing state. -/
def runPacerOps (s : PacerState) (ops : List PacerOp) : PacerState :=
  ops.foldl applyPacerOp s

theorem pacer_step_counter (s : PacerState) (now : ℚ)
    (h0 : 0 ≤ s.underrunCounter) (h4 : s.underrunCounter ≤ 4) :
    0 ≤ (sleepIfRenderingTooFast s now).1.underrunCounter
    ∧ (sleepIfRenderingTooFast s now).1.underrunCounter ≤ 4 := by
  simp only [sleepIfRenderingTooFast]
  split
  · split
    · split
      · exact ⟨h0, h4⟩
      · rename_i hc
        simp only [not_lt] at hc
        dsimp only
        exact ⟨by omega, by omega⟩
    · dsimp only
      exact ⟨le_refl 0, by omega⟩
  · exact ⟨h0, h4⟩

theorem pacer_ops_counter (ops : List PacerOp) :
    ∀ s : PacerState, 0 ≤ s.underrunCounter → s.underrunCounter ≤ 4 →
      0 ≤ (runPacerOps s ops).underrunCounter
      ∧ (runPacerOps s ops).underrunCounter ≤ 4 := by
  induction ops with
  | nil => exact fun s h0 h4 => ⟨h0, h4⟩
  | cons op rest ih =>
    intro s h0 h4
    cases op with
    | swap now =>
      exact ih _ (pacer_step_counter s now h0 h4).1 (pacer_step_counter s now h0 h4).2
    | setInterval n => exact ih _ h0 h4

theorem truncToInt_intCast (e : Int) : truncToInt (e : ℚ) = e := by
  simp [truncToInt]

theorem pacer_step_eval (s : PacerState) (now : ℚ) (e : Int)
    (h : now - s.lastSwapTime = (e : ℚ)) (hm : 0 < s.minSwapTimeMs) :
    sleepIfRenderingTooFast s now =
      if 0 ≤ e ∧ e < s.minSwapTimeMs - 3 then
        (if 3 < s.underrunCounter
          then ({ s with lastSwapTime := now }, some (s.minSwapTimeMs - e))
          else ({ s with lastSwapTime := now,
                         underrunCounter := s.underrunCounter + 1 }, none))
      else ({ s with lastSwapTime := now, underrunCounter := 0 }, none) := by
  simp only [sleepIfRenderingTooFast, gt_iff_lt, if_pos hm, h, truncToInt_intCast,
    isPositiveAndBelow, Bool.and_eq_true, decide_eq_true_eq]

/-- C1: with `minSwapTimeMs = 16` and the counter initially 0, four
consecutive calls with elapsed 2ms sleep never while the counter climbs
1, 2, 3, 4; the fifth such call sleeps for exactly
`minSwapTimeMs - elapsed = 16 - 2`; and any subsequent call whose elapsed
time is at least `minSwapTimeMs - 3 = 13` resets the counter to zero. -/
theorem sleepIfRenderingTooFast_underrun_correction (e : Int) (he : 13 ≤ e) :
    (runPacer ⟨0, 16, 0⟩ [2, 4, 6, 8]).2 = [none, none, none, none]
    ∧ (runPacer ⟨0, 16, 0⟩ [2]).1.underrunCounter = 1
    ∧ (runPacer ⟨0, 16, 0⟩ [2, 4]).1.underrunCounter = 2
    ∧ (runPacer ⟨0, 16, 0⟩ [2, 4, 6]).1.underrunCounter = 3
    ∧ (runPacer ⟨0, 16, 0⟩ [2, 4, 6, 8]).1.underrunCounter = 4
    ∧ (sleepIfRenderingTooFast (runPacer ⟨0, 16, 0⟩ [2, 4, 6, 8]).1 10).2
        = some (16 - 2)
    ∧ (sleepIfRenderingTooFast
          (sleepIfRenderingTooFast (runPacer ⟨0, 16, 0⟩ [2, 4, 6, 8]).1 10).1
          (10 + (e : ℚ))).1.underrunCounter = 0 := by
  have h1 : sleepIfRenderingTooFast ⟨0, 16, 0⟩ 2 = (⟨2, 16, 1⟩, none) := by
    rw [pacer_step_eval ⟨0, 16, 0⟩ 2 2 (by norm_num) (by norm_num)]
    norm_num
  have h2 : sleepIfRenderingTooFast ⟨2, 16, 1⟩ 4 = (⟨4, 16, 2⟩, none) := by
    rw [pacer_step_eval ⟨2, 16, 1⟩ 4 2 (by norm_num) (by norm_num)]
    norm_num
  have h3 : sleepIfRenderingTooFast ⟨4, 16, 2⟩ 6 = (⟨6, 16, 3⟩, none) := by
    rw [pacer_step_eval ⟨4, 16, 2⟩ 6 2 (by norm_num) (by norm_num)]
    norm_num
  have h4 : sleepIfRenderingTooFast ⟨6, 16, 3⟩ 8 = (⟨8, 16, 4⟩, none) := by
    rw [pacer_step_eval ⟨6, 16, 3⟩ 8 2 (by norm_num) (by norm_num)]
    norm_num
  have h5 : sleepIfRenderingTooFast ⟨8, 16, 4⟩ 10 = (⟨10, 16, 4⟩, some (16 - 2)) := by
    rw [pacer_step_eval ⟨8, 16, 4⟩ 10 2 (by norm_num) (by norm_num)]
    norm_num
  have hrun : runPacer ⟨0, 16, 0⟩ [2, 4, 6, 8] = (⟨8, 16, 4⟩, [none, none, none, none]) := by
    simp only [runPacer, h1, h2, h3, h4]
  have hrun1 : runPacer ⟨0, 16, 0⟩ [2] = (⟨2, 16, 1⟩, [none]) := by
    simp only [runPacer, h1]
  have hrun2 : runPacer ⟨0, 16, 0⟩ [2, 4] = (⟨4, 16, 2⟩, [none, none]) := by
    simp only [runPacer, h1, h2]
  have hrun3 : runPacer ⟨0, 16, 0⟩ [2, 4, 6] = (⟨6, 16, 3⟩, [none, none, none]) := by
    simp only [runPacer, h1, h2, h3]
  have h6 : (sleepIfRenderingTooFast ⟨10, 16, 4⟩ (10 + (e : ℚ))).1.underrunCounter = 0 := by
    rw [pacer_step_eval ⟨10, 16, 4⟩ (10 + (e : ℚ)) e (by push_cast; ring) (by norm_num)]
    rw [if_neg (by dsimp only; omega)]
  refine ⟨?_, ?_, ?_, ?_, ?_, ?_, ?_⟩
  · rw [hrun]
  · rw [hrun1]
  · rw [hrun2]
  · rw [hrun3]
  · rw [hrun]
  · rw [hrun]
    dsimp only
    rw [h5]
  · rw [hrun]
    dsimp only
    rw [h5]
    dsimp only
    exact h6

theorem sleepIfRenderingTooFast_underrun_correction_witness :
    (sleepIfRenderingTooFast
        (sleepIfRenderingTooFast (runPacer ⟨0, 16, 0⟩ [2, 4, 6, 8]).1 10).1
        (10 + ((13 : Int) : ℚ))).1.underrunCounter = 0 :=
  (sleepIfRenderingTooFast_underrun_correction 13 (by decide)).2.2.2.2.2.2

/-- C7: with `minSwapTimeMs <= 0` (in particular the constructed default 0),
any sequence of pacer invocations with any clock readings sleeps never and
leaves the whole frame-pacing state (including `lastSwapTime` and
`underrunCounter`) unchanged. -/
theorem sleepIfRenderingTooFast_disabled_noop (s : PacerState) (nows : List ℚ)
    (h : s.minSwapTimeMs ≤ 0) :
    runPacer s nows = (s, nows.map fun _ => none) := by
  induction nows with
  | nil => rfl
  | cons now rest ih =>
    have hstep : sleepIfRenderingTooFast s now = (s, none) := by
      simp only [sleepIfRenderingTooFast]
      rw [if_neg (by omega)]
    simp only [runPacer, hstep, ih, List.map]

theorem sleepIfRenderingTooFast_disabled_noop_witness :
    runPacer initialPacerState [2, 100] = (initialPacerState, [none, none]) :=
  sleepIfRenderingTooFast_disabled_noop initialPacerState [2, 100] (by decide)

/-- C9: starting from construction (`underrunCounter = 0`), after any
sequence of swaps (with any clock readings) and `setSwapInterval` calls the
counter stays in the range `0..4`; moreover a below-threshold swap increments
it only while it is at most 3, the sleep branch leaves it unchanged, and a
swap whose truncated elapsed time falls outside `[0, minSwapTimeMs - 3)`
resets it to 0. -/
theorem underrunCounter_bounded (s : PacerState) (ops : List PacerOp)
    (h : s.underrunCounter = 0) :
    (0 ≤ (runPacerOps s ops).underrunCounter
      ∧ (runPacerOps s ops).underrunCounter ≤ 4)
    ∧ (∀ t : PacerState, ∀ now : ℚ, ∀ e : Int, now - t.lastSwapTime = (e : ℚ) →
        0 < t.minSwapTimeMs → 0 ≤ e → e < t.minSwapTimeMs - 3 →
        t.underrunCounter ≤ 3 →
        (sleepIfRenderingTooFast t now).1.underrunCounter = t.underrunCounter + 1)
    ∧ (∀ t : PacerState, ∀ now : ℚ, ∀ e : Int, now - t.lastSwapTime = (e : ℚ) →
        0 < t.minSwapTimeMs → 0 ≤ e → e < t.minSwapTimeMs - 3 →
        3 < t.underrunCounter →
        (sleepIfRenderingTooFast t now).1.underrunCounter = t.underrunCounter)
    ∧ (∀ t : PacerState, ∀ now : ℚ, ∀ e : Int, now - t.lastSwapTime = (e : ℚ) →
        0 < t.minSwapTimeMs → ¬(0 ≤ e ∧ e < t.minSwapTimeMs - 3) →
        (sleepIfRenderingTooFast t now).1.underrunCounter = 0) := by
  refine ⟨pacer_ops_counter ops s (by omega) (by omega), ?_, ?_, ?_⟩
  · intro t now e he hm h0 h3 hc
    rw [pacer_step_eval t now e he hm, if_pos ⟨h0, h3⟩, if_neg (by omega)]
  · intro t now e he hm h0 h3 hc
    rw [pacer_step_eval t now e he hm, if_pos ⟨h0, h3⟩, if_pos hc]
  · intro t now e he hm hout
    rw [pacer_step_eval t now e he hm, if_neg hout]

theorem underrunCounter_bounded_witness :
    (0 ≤ (runPacerOps ⟨0, 0, 0⟩ [.setInterval 1, .swap 2]).underrunCounter
      ∧ (runPacerOps ⟨0, 0, 0⟩ [.setInterval 1, .swap 2]).underrunCounter ≤ 4)
    ∧ (sleepIfRenderingTooFast ⟨0, 16, 0⟩ 2).1.underrunCounter = 0 + 1
    ∧ (sleepIfRenderingTooFast ⟨0, 16, 4⟩ 2).1.underrunCounter = 4
    ∧ (sleepIfRenderingTooFast ⟨0, 16, 2⟩ 20).1.underrunCounter = 0 := by
  have T := underrunCounter_bounded ⟨0, 0, 0⟩ [.setInterval 1, .swap 2] rfl
  exact ⟨T.1,
    T.2.1 ⟨0, 16, 0⟩ 2 2 (by simp) (by decide) (by decide) (by decide) (by decide),
    T.2.2.1 ⟨0, 16, 4⟩ 2 2 (by simp) (by decide) (by decide) (by decide) (by decide),
    T.2.2.2 ⟨0, 16, 2⟩ 20 20 (by simp) (by decide) (by decide)⟩

/-- A platform CoreVideo call made by `setDisplayLinkTarget`, in source
order. -/
inductive PlatformCall where
  | CVDisplayLinkStop
  | CVDisplayLinkRelease
  | CVDisplayLinkCreateWithCGDisplay
  | CVDisplayLinkSetOutputCallback (displayLinkContext : Nat)
  | CVDisplayLinkSetCurrentCGDisplayFromOpenGLContext
  | CVDisplayLinkStart
  deriving DecidableEq, Repr

/-- The platform display link produced by `CVDisplayLinkCreateWithCGDisplay`:
the part the claims depend on is the opaque trampoline context pointer
registered by `CVDisplayLinkSetOutputCallback` (the `DisplayLinkTarget*` the
callback forwards to), fixed at creation time.  `DisplayLinkTarget*` pointers
are modelled as numeric ids. -/
structure DisplayLink where
  callbackContext : Nat
  deriving DecidableEq, Repr

/-- The display-link fields of `NativeContext`: the stored non-owning target
pointer and the platform link handle (`none` models `nullptr`). -/
structure DLState where
  displayLinkTarget : Option Nat
  displayLinkRef : Option DisplayLink
  deriving DecidableEq, Repr

/-- Display-link state set by the constructor initialiser list:
`displayLinkTarget (nullptr), displayLinkRef (nullptr)`. -/
def initialDLState : DLState :=
  { displayLinkTarget := none, displayLinkRef := none }

/-- Transcription of `displayLinkOutputCallback` (lines 225–231): casts the opaque
`displayLinkContext` back to a `DisplayLinkTarget*` and invokes its single
method `displayLink()`; the result names the target whose method runs. -/
def displayLinkOutputCallback (displayLinkContext : Nat) : Nat :=
  displayLinkContext

/-- The target whose method a vsync tick reaches while a subscription is
active: the platform invokes the trampoline with the context pointer fixed by
`CVDisplayLinkSetOutputCallback` at creation. -/
def deliveredTarget (s : DLState) : Option Nat :=
  s.displayLinkRef.map fun link => displayLinkOutputCallback link.callbackContext

/-- Transcription of `setDisplayLinkTarget` (lines 233–256), returning the updated fields and
the ordered platform calls it makes.  A null target stops and releases any
active link and clears the stored target; a non-null target creates a link
(registering the trampoline with the current target as context) only when
none exists, then stores the target and starts the link. -/
def setDisplayLinkTarget (s : DLState) (target : Option Nat) :
    DLState × List PlatformCall :=
  match target with
  | none =>
    match s.displayLinkRef with
    | some _ =>
        ({ displayLinkTarget := none, displayLinkRef := none },
         [.CVDisplayLinkStop, .CVDisplayLinkRelease])
    | none => ({ s with displayLinkTarget := none }, [])
  | some t =>
    match s.displayLinkRef with
    | none =>
        ({ displayLinkTarget := some t,
           displayLinkRef := some { callbackContext := t } },
         [.CVDisplayLinkCreateWithCGDisplay, .CVDisplayLinkSetOutputCallback t,
          .CVDisplayLinkSetCurrentCGDisplayFromOpenGLContext, .CVDisplayLinkStart])
    | some link =>
        ({ displayLinkTarget := some t, displayLinkRef := some link },
         [.CVDisplayLinkStart])

/-- Run a sequence of `setDisplayLinkTarget` calls, concatenating the
platform-call traces. -/
def runDL : DLState → List (Option Nat) → DLState × List PlatformCall
  | s, [] => (s, [])
  | s, t :: rest =>
    let r := setDisplayLinkTarget s t
    let r2 := runDL r.1 rest
    (r2.1, r.2 ++ r2.2)

/-- Number of link-creation calls in a trace. -/
def createCount (tr : List PlatformCall) : Nat :=
  tr.count .CVDisplayLinkCreateWithCGDisplay

/-- Number of link-release calls in a trace. -/
def releaseCount (tr : List PlatformCall) : Nat :=
  tr.count .CVDisplayLinkRelease

/-- Number of live platform subscriptions held by the state: 0 or 1. -/
def activeSubscriptions (s : DLState) : Nat :=
  if s.displayLinkRef.isSome then 1 else 0

theorem setDisplayLinkTarget_counts (s : DLState) (t : Option Nat) :
    createCount (setDisplayLinkTarget s t).2 + activeSubscriptions s
      = releaseCount (setDisplayLinkTarget s t).2
        + activeSubscriptions (setDisplayLinkTarget s t).1 := by
  cases t <;> cases h : s.displayLinkRef <;>
    simp [setDisplayLinkTarget, activeSubscriptions, createCount, releaseCount, h]

theorem runDL_counts (calls : List (Option Nat)) :
    ∀ s : DLState,
      createCount (runDL s calls).2 + activeSubscriptions s
        = releaseCount (runDL s calls).2
          + activeSubscriptions (runDL s calls).1 := by
  induction calls with
  | nil => intro s; rfl
  | cons t rest ih =>
    intro s
    have h1 := setDisplayLinkTarget_counts s t
    have h2 := ih (setDisplayLinkTarget s t).1
    simp only [runDL, createCount, releaseCount, List.count_append] at *
    omega

/-- C2 counterexample: register target 1, then replace it with target 2 while
the subscription is active.  The stored target becomes 2, but vsync callbacks
through the trampoline still reach target 1 — the claim that they are
forwarded to the new target is false, because the output-callback context is
set only when the link is created. -/
theorem setDisplayLinkTarget_replace_counterexample :
    (setDisplayLinkTarget (setDisplayLinkTarget initialDLState (some 1)).1
        (some 2)).1.displayLinkTarget = some 2
    ∧ deliveredTarget (setDisplayLinkTarget
        (setDisplayLinkTarget initialDLState (some 1)).1 (some 2)).1 = some 1
    ∧ ¬ deliveredTarget (setDisplayLinkTarget
        (setDisplayLinkTarget initialDLState (some 1)).1 (some 2)).1 = some 2 := by
  decide

/-- C2 (amended): at most one display-link subscription is active per
`NativeContext` at a time — over any call sequence, creations equal releases
plus the live subscription count, which is at most 1; and calling
`setDisplayLinkTarget t2` while a subscription created for `t1` is active
replaces the stored target with `t2` without an explicit stop (the only
platform call is a restart, no create/stop/release), while vsync callbacks
through the trampoline continue to be forwarded to `t1`, the target bound
when the subscription was created. -/
theorem setDisplayLinkTarget_replace_amended (t1 t2 : Nat)
    (calls : List (Option Nat)) :
    ((setDisplayLinkTarget (setDisplayLinkTarget initialDLState (some t1)).1
        (some t2)).1.displayLinkTarget = some t2
      ∧ deliveredTarget (setDisplayLinkTarget
          (setDisplayLinkTarget initialDLState (some t1)).1 (some t2)).1 = some t1
      ∧ (setDisplayLinkTarget (setDisplayLinkTarget initialDLState (some t1)).1
          (some t2)).2 = [.CVDisplayLinkStart])
    ∧ createCount (runDL initialDLState calls).2
        = releaseCount (runDL initialDLState calls).2
          + activeSubscriptions (runDL initialDLState calls).1
    ∧ activeSubscriptions (runDL initialDLState calls).1 ≤ 1 := by
  refine ⟨⟨rfl, rfl, rfl⟩, ?_, ?_⟩
  · have h := runDL_counts calls initialDLState
    simpa [initialDLState, activeSubscriptions] using h
  · unfold activeSubscriptions
    split <;> omega

/-- C6: `setDisplayLinkTarget(null)` stops and releases the platform link
exactly when one is active and always clears the stored target; the resulting
state has no link, so a second null call changes nothing and makes no
platform call at all. -/
theorem setDisplayLinkTarget_null_idempotent (s : DLState) :
    (setDisplayLinkTarget s none).1.displayLinkTarget = none
    ∧ (setDisplayLinkTarget s none).1.displayLinkRef = none
    ∧ (setDisplayLinkTarget s none).2
        = (if s.displayLinkRef.isSome
            then [.CVDisplayLinkStop, .CVDisplayLinkRelease] else [])
    ∧ setDisplayLinkTarget (setDisplayLinkTarget s none).1 none
        = ((setDisplayLinkTarget s none).1, []) := by
  obtain ⟨tgt, ref⟩ := s
  cases ref <;> simp [setDisplayLinkTarget]

/-- The thread-current `NSOpenGLContext*` and this context's `renderContext`,
as pointers (`none` models `nil`).  `isActive` (lines 137–140) is the ObjC
pointer comparison `[NSOpenGLContext currentContext] == renderContext`. -/
def isActive (currentContext renderContext : Option Nat) : Bool :=
  currentContext == renderContext

/-- Transcription of `deactivateCurrentContext` (lines 142–145), called by
`shutdownOnRenderThread`: `[NSOpenGLContext clearCurrentContext]` leaves no
context current on the thread, whatever was current before. -/
def deactivateCurrentContext (_currentContext : Option Nat) : Option Nat :=
  none

/-- C8: `isActive` is true iff the thread-current context is
pointer-identical to this context's render context; in particular after
teardown has cleared the current context, it returns false against any live
(non-nil) render context — and, being a total function, it cannot crash. -/
theorem isActive_identity (currentContext renderContext : Option Nat) :
    (isActive currentContext renderContext = true ↔ currentContext = renderContext)
    ∧ (renderContext.isSome →
        ∀ prev : Option Nat,
          isActive (deactivateCurrentContext prev) renderContext = false) := by
  constructor
  · simp [isActive]
  · intro h prev
    cases renderContext with
    | none => simp at h
    | some c => simp [isActive, deactivateCurrentContext]

theorem isActive_identity_witness :
    isActive (deactivateCurrentContext (some 7)) (some 7) = false
    ∧ isActive (some 7) (some 7) = true :=
  ⟨(isActive_identity (some 7) (some 7)).2 (by decide) (some 7),
   (isActive_identity (some 7) (some 7)).1.mpr rfl⟩

end JuceGL
